import Mathlib

/-!
Verification of the campaign execution engine of
`supabase/functions/send-campaign-emails/index.ts`.

Every definition below is a shallow embedding of a function (or code path)
of that file; line numbers in doc comments refer to it.  JavaScript strings
are modelled as Lean `String` (lists of characters; the inputs exercised
here are ASCII, where JS UTF-16 lengths and code-point lengths agree),
JS numbers holding counters as `Int`, and asynchronous effects as explicit
state passing.
-/

set_option linter.unusedVariables false

namespace SendCampaignEmails

/-- A recipient record (interface `Recipient`, lines 21-26). -/
structure Recipient where
  id : String
  name : String
  email : String
  course : String
  deriving DecidableEq, Repr

/-- An email template (`EmailRequest.template`, lines 30-33). -/
structure Template where
  subject : String
  body : String
  deriving DecidableEq, Repr

-- ===========================================================================
-- Generic JS string primitives
-- ===========================================================================

/-- Characters stripped by JS `String.prototype.trim` (ASCII whitespace
plus NBSP and BOM; the full JS set also has rarer Unicode spaces that no
input here contains). -/
def isJsSpace (c : Char) : Bool :=
  c = ' ' || c = '\t' || c = '\n' || c = '\r' ||
  c = Char.ofNat 11 || c = Char.ofNat 12 || c = Char.ofNat 160 || c = Char.ofNat 65279

/-- JS `s.trim()`: strip leading and trailing whitespace. -/
def jsTrim (s : String) : String :=
  ⟨((s.data.dropWhile isJsSpace).reverse.dropWhile isJsSpace).reverse⟩

/-- Helper for `jsIncludes`: is `sub` a prefix of `s`? -/
def listIsPrefix (sub s : List Char) : Bool :=
  match sub, s with
  | [], _ => true
  | _ :: _, [] => false
  | a :: as_, b :: bs => a = b && listIsPrefix as_ bs

/-- Helper for `jsIncludes` over character lists. -/
def listContainsSub (s sub : List Char) : Bool :=
  match s with
  | [] => listIsPrefix sub []
  | _ :: cs => listIsPrefix sub s || listContainsSub cs sub

/-- JS `s.includes(sub)`: substring test (case-sensitive). -/
def jsIncludes (s sub : String) : Bool :=
  listContainsSub s.data sub.data

-- ===========================================================================
-- JS `String.prototype.replace(/literal/gi, replacement)`
-- ===========================================================================

/-- Case-insensitive match of the literal token `tok` against a prefix of
`s`; on success returns the matched characters (original case) and the
remainder.  Models one match of a `/literal/i` regex at the current
position. -/
def takeMatch (tok s : List Char) : Option (List Char × List Char) :=
  match tok, s with
  | [], rest => some ([], rest)
  | _ :: _, [] => none
  | t :: ts, c :: cs =>
    if t.toLower = c.toLower then
      match takeMatch ts cs with
      | some (m, rest) => some (c :: m, rest)
      | none => none
    else none

/-- Expansion of a JS replacement string: `$$` is a literal dollar, `$&`
the matched text, a dollar before a backquote the text before the match,
a dollar before an apostrophe the text after the match; any other dollar
sequence is literal (the patterns used here have no capture groups). -/
def expandRepl (matched before after : List Char) : List Char → List Char
  | [] => []
  | [c] => [c]
  | c :: d :: rest2 =>
    if c = '$' then
      if d = '$' then '$' :: expandRepl matched before after rest2
      else if d = '&' then matched ++ expandRepl matched before after rest2
      else if d = Char.ofNat 96 then before ++ expandRepl matched before after rest2
      else if d = Char.ofNat 39 then after ++ expandRepl matched before after rest2
      else c :: expandRepl matched before after (d :: rest2)
    else c :: expandRepl matched before after (d :: rest2)

/-- One left-to-right global replacement pass: at each position try to
match `tok` (case-insensitively); on a match emit the expanded replacement
and resume after the matched text (the emitted replacement is not
rescanned), otherwise keep the character.  `before` accumulates the part
of the original string already consumed.  `fuel` bounds the recursion;
every step consumes at least one input character, so `fuel = s.length`
suffices and the `0` case is never reached from `jsReplaceGI`. -/
def scanReplace (tok rep : List Char) : Nat → List Char → List Char → List Char
  | 0, _, s => s
  | _ + 1, _, [] => []
  | fuel + 1, before, c :: cs =>
    match takeMatch tok (c :: cs) with
    | some (m, rest) =>
      expandRepl m before rest rep ++ scanReplace tok rep fuel (before ++ m) rest
    | none => c :: scanReplace tok rep fuel (before ++ [c]) cs

/-- JS `s.replace(/tok/gi, rep)` for a literal token `tok` with no capture
groups. -/
def jsReplaceGI (tok rep s : String) : String :=
  ⟨scanReplace tok.data rep.data s.data.length [] s.data⟩

/-- Does `s` contain a case-insensitive occurrence of the literal `tok`? -/
def hasTokList (tok : List Char) : List Char → Bool
  | [] => (takeMatch tok []).isSome
  | c :: cs => (takeMatch tok (c :: cs)).isSome || hasTokList tok cs

/-- String-level wrapper of `hasTokList`. -/
def hasTok (tok s : String) : Bool :=
  hasTokList tok.data s.data

-- ===========================================================================
-- CONTENT PROCESSING (lines 234-245)
-- ===========================================================================

/-- The literal placeholder token for the recipient name, as matched by
`/\x7b\x7bname\x7d\x7d/gi` (line 237). -/
def nameToken : String := "\x7b\x7bname\x7d\x7d"

/-- The literal placeholder token `/\x7b\x7bemail\x7d\x7d/gi` (line 238). -/
def emailToken : String := "\x7b\x7bemail\x7d\x7d"

/-- The literal placeholder token `/\x7b\x7bcourse\x7d\x7d/gi` (line 239). -/
def courseToken : String := "\x7b\x7bcourse\x7d\x7d"

/-- `personalizeContent` (lines 234-240): empty content maps to the empty
string, otherwise the three placeholder tokens are substituted by three
sequential global case-insensitive `replace` calls, name first, then
email, then course.  (`recipient.name || ''` is the identity on a `String`
field: the only falsy string is `''` itself.) -/
def personalizeContent (content : String) (recipient : Recipient) : String :=
  if content = "" then ""
  else
    jsReplaceGI courseToken recipient.course
      (jsReplaceGI emailToken recipient.email
        (jsReplaceGI nameToken recipient.name content))

/-- Does `s` contain any of the three placeholder tokens
(case-insensitively)? -/
def containsPlaceholder (s : String) : Bool :=
  hasTok nameToken s || hasTok emailToken s || hasTok courseToken s

-- ===========================================================================
-- EMAIL VALIDATION UTILITIES (lines 75-133)
-- ===========================================================================

/-- The local-part character class of the email regex (line 80):
`[a-zA-Z0-9.!#$%&;'*+/=?^_` (backquote) `\x7b|\x7d~-]` — written here with
character codes for the apostrophe (39), backquote (96) and braces
(123/125). -/
def isLocalChar (c : Char) : Bool :=
  c.isAlphanum || c = '.' || c = '!' || c = '#' || c = '$' || c = '%' ||
  c = '&' || c = Char.ofNat 39 || c = '*' || c = '+' || c = '/' || c = '=' ||
  c = '?' || c = '^' || c = '_' || c = Char.ofNat 96 || c = Char.ofNat 123 ||
  c = '|' || c = Char.ofNat 125 || c = '~' || c = '-'

/-- Characters allowed inside a domain label: `[a-zA-Z0-9-]`. -/
def isLabelChar (c : Char) : Bool :=
  c.isAlphanum || c = '-'

/-- One domain label per the regex fragment
`[a-zA-Z0-9](?:[a-zA-Z0-9-]\x7b0,61\x7d[a-zA-Z0-9])?`: a single
alphanumeric character, or 2 to 63 characters from `[a-zA-Z0-9-]` whose
first and last are alphanumeric. -/
def validLabel (l : List Char) : Bool :=
  match l with
  | [] => false
  | c :: cs =>
    c.isAlphanum && (List.getLastD (c :: cs) c).isAlphanum &&
    (c :: cs).all isLabelChar && decide ((c :: cs).length ≤ 63)

/-- Split a character list at every occurrence of `sep` (like
`String.split`, keeping empty segments). -/
def splitOnChar (sep : Char) : List Char → List (List Char)
  | [] => [[]]
  | c :: cs =>
    let r := splitOnChar sep cs
    if c = sep then [] :: r
    else
      match r with
      | [] => [[c]]
      | h :: t => (c :: h) :: t

/-- The anchored email regex of line 80: a nonempty local part of
`isLocalChar` characters (which excludes `@`, so exactly one `@` must be
present), then `@`, then one or more dot-separated `validLabel` labels. -/
def emailRegexTest (s : String) : Bool :=
  match splitOnChar '@' s.data with
  | [localPart, domain] =>
    decide (localPart ≠ []) && localPart.all isLocalChar &&
    (splitOnChar '.' domain).all validLabel
  | _ => false

/-- `isValidEmail` (lines 78-82): the regex is tested against the
*trimmed* input while the 254-character bound is tested against the *raw*
input (`email.length <= 254`).  `!email` rejects only the empty string. -/
def isValidEmail (email : String) : Bool :=
  if email = "" then false
  else emailRegexTest (jsTrim email) && decide (email.data.length ≤ 254)

/-- `isValidSubject` (lines 87-91): nonempty after trimming and at most
998 characters after trimming; `!subject` rejects the empty string. -/
def isValidSubject (subject : String) : Bool :=
  if subject = "" then false
  else
    let trimmed := jsTrim subject
    decide (0 < trimmed.data.length) && decide (trimmed.data.length ≤ 998)

/-- `isValidFromAddress` (lines 96-102): false when the From email is
empty or fails `isValidEmail` (the display name is not examined). -/
def isValidFromAddress (fromName : String) (fromEmail : String) : Bool :=
  if fromEmail = "" then false
  else isValidEmail fromEmail

/-- JS `name.replace(/"/g, '\\"')`: escape every double quote with a
backslash (used by `buildToAddress` and `buildFromAddress`). -/
def escapeQuotes (s : String) : String :=
  ⟨(s.data.map (fun c => if c = '"' then ['\\', '"'] else [c])).flatten⟩

/-- `buildToAddress` (lines 219-228): the email is trimmed
(`const cleanEmail = email.trim()`); with a nonempty display name the
result is `"Name" <email>` with quotes escaped, otherwise the bare
trimmed email. -/
def buildToAddress (name email : String) : String :=
  let cleanEmail := jsTrim email
  if name ≠ "" ∧ jsTrim name ≠ "" then
    "\"" ++ escapeQuotes (jsTrim name) ++ "\" <" ++ cleanEmail ++ ">"
  else cleanEmail

-- ===========================================================================
-- CONFIGURATION (lines 253-256) AND TIMEOUT WRAPPER (lines 262-269)
-- ===========================================================================

/-- `MAX_RETRIES = 2` (line 253). -/
def MAX_RETRIES : Nat := 2

/-- `CHUNK_SIZE = 20` (line 255). -/
def CHUNK_SIZE : Nat := 20

/-- `EMAIL_TIMEOUT_MS = 2 * 60 * 1000` (line 256). -/
def EMAIL_TIMEOUT_MS : Nat := 2 * 60 * 1000

/-- Outcome of one underlying transport send attempt: resolution, or
rejection with an error message. -/
inductive AttemptResult where
  | ok
  | err (msg : String)
  deriving DecidableEq, Repr

/-- One transport attempt together with its wall-clock duration in
milliseconds (the duration is what `withTimeout` would race against). -/
structure TransportAttempt where
  duration_ms : Nat
  result : AttemptResult
  deriving DecidableEq, Repr

/-- `withTimeout` (lines 262-269): races the wrapped operation against a
timer of `ms` milliseconds; if the operation has not settled when the
timer fires, the observed outcome is a rejection carrying
`errorMessage`. -/
def withTimeout (a : TransportAttempt) (ms : Nat) (errorMessage : String) : AttemptResult :=
  if ms ≤ a.duration_ms then .err errorMessage else a.result

/-- What the `try` block of `sendEmailWithRetry` observes for an attempt.
Line 304 awaits `client.send(...)` directly — the `withTimeout` wrapper is
*not* applied — so the observed outcome is the transport outcome whatever
the attempt's duration. -/
def attemptObserved (a : TransportAttempt) : AttemptResult :=
  a.result

-- ===========================================================================
-- EMAIL SENDING WITH RETRY (lines 275-351)
-- ===========================================================================

/-- The result value of `sendEmailWithRetry`:
`\x7b success: boolean; error?: string \x7d`. -/
structure SendResult where
  success : Bool
  error : Option String
  deriving DecidableEq, Repr

/-- The permanent-failure classification of lines 325-329: the error
message contains `"550"`, `"553"`, `"invalid"`, `"RFC"` or `"5.7.1"`. -/
def isPermanentError (msg : String) : Bool :=
  jsIncludes msg "550" || jsIncludes msg "553" || jsIncludes msg "invalid" ||
  jsIncludes msg "RFC" || jsIncludes msg "5.7.1"

/-- The retry loop of lines 300-350.  `outcomes i` is the transport
outcome of attempt number `i` (0-based); `fuel` is the number of loop
iterations remaining (`MAX_RETRIES - attempt`), so `fuel = 0` is the
normal loop exit of line 350.  Returns the `SendResult` together with the
number of attempts actually performed:
  - success returns immediately (line 319);
  - a permanent error returns `Permanent failure: ...` with no further
    attempts (line 330);
  - an error containing `"timed out"` is retried once when it strikes the
    first attempt and returns `Skipped: ...` otherwise (lines 334-341);
  - any other error backs off and retries while attempts remain, and on
    the last attempt returns the error message itself (lines 343-347). -/
def runRetry (outcomes : Nat → AttemptResult) : Nat → Nat → SendResult × Nat
  | 0, attempt => (⟨false, some "Max retries exceeded"⟩, attempt)
  | fuel + 1, attempt =>
    match outcomes attempt with
    | .ok => (⟨true, none⟩, attempt + 1)
    | .err msg =>
      if isPermanentError msg then
        (⟨false, some ("Permanent failure: " ++ msg)⟩, attempt + 1)
      else if jsIncludes msg "timed out" then
        if attempt = 0 then runRetry outcomes fuel (attempt + 1)
        else (⟨false, some ("Skipped: " ++ msg)⟩, attempt + 1)
      else if attempt < MAX_RETRIES - 1 then runRetry outcomes fuel (attempt + 1)
      else (⟨false, some msg⟩, attempt + 1)

/-- `sendEmailWithRetry` (lines 275-351), abstracted over the sequence of
transport outcomes; header generation and logging have no effect on the
returned value. -/
def sendEmailWithRetry (outcomes : Nat → AttemptResult) : SendResult × Nat :=
  runRetry outcomes MAX_RETRIES 0

/-- `sendEmailWithRetry` driven by timed transport attempts, observing
each attempt exactly as the source does (directly, without
`withTimeout`). -/
def sendEmailWithRetryTimed (atts : Nat → TransportAttempt) : SendResult × Nat :=
  sendEmailWithRetry (fun i => attemptObserved (atts i))

/-- The per-recipient log update applied after a send result
(lines 585-598): success records status `sent` with a cleared error;
failure records status `failed` with `result.error || "Unknown error"`
(JS `||`: a missing *or empty* message falls back to the default). -/
def logUpdateForResult (res : SendResult) : String × Option String :=
  if res.success then ("sent", none)
  else
    ("failed", some (match res.error with
      | none => "Unknown error"
      | some e => if e = "" then "Unknown error" else e))

-- ===========================================================================
-- CAMPAIGN COUNTERS (per-recipient updates, lines 604-619 and the
-- textually identical updates at lines 412-426, 452-466, 512-526, 555-569)
-- ===========================================================================

/-- The campaign row as read and written by the engine.  Counters are
`Int` (JS numbers holding database integers; the `|| 0` null-guards of the
source are the identity once the row holds integers). -/
structure Campaign where
  status : String
  sent_count : Int
  failed_count : Int
  pending_count : Int
  total_recipients : Int
  sent_at : Option Nat
  deriving DecidableEq, Repr

/-- One per-recipient counter update (lines 610-619, and the same shape at
the invalid-address, blocked-subject and validation-failure sites):
increment `sent_count` or `failed_count` by the outcome, decrement
`pending_count` clamped at zero via `Math.max(0, pending_count - 1)`. -/
def applyCounterStep (c : Campaign) (success : Bool) : Campaign :=
  { c with
    sent_count := c.sent_count + (if success then 1 else 0),
    failed_count := c.failed_count + (if success then 0 else 1),
    pending_count := max 0 (c.pending_count - 1) }

/-- An engine operation observable on the campaign counters:
`done success` is a per-recipient persistence step (send result,
invalid-address handling, blocked-subject handling, validation failure) —
all of which run the counter update above — while `connectionErrorMark`
is the connection-error path of lines 624-639, which marks the remaining
log entries failed but does not touch the campaign counters. -/
inductive CounterStep where
  | done (success : Bool)
  | connectionErrorMark
  deriving DecidableEq, Repr

/-- Apply one engine operation to the campaign counters. -/
def applyEngineStep (c : Campaign) : CounterStep → Campaign
  | .done success => applyCounterStep c success
  | .connectionErrorMark => c

/-- Run a sequence of engine operations. -/
def runTrace (c : Campaign) : List CounterStep → Campaign
  | [] => c
  | s :: rest => runTrace (applyEngineStep c s) rest

/-- Number of per-recipient persistence steps in a trace (each submitted
recipient produces at most one such step). -/
def doneCount : List CounterStep → Nat
  | [] => 0
  | .done _ :: rest => doneCount rest + 1
  | .connectionErrorMark :: rest => doneCount rest

/-- The campaign-counter invariant of the specification:
`sent_count + failed_count + pending_count = total_recipients`. -/
def campaignInvariant (c : Campaign) : Prop :=
  c.sent_count + c.failed_count + c.pending_count = c.total_recipients

instance (c : Campaign) : Decidable (campaignInvariant c) := by
  unfold campaignInvariant; infer_instance

/-- The campaign state right after initial submission: the campaign row is
created with `total_recipients = n` (the submitted recipient count,
`Campaigns.tsx` line 288) and the handler's initial path sets
`status: "sending"`, `pending_count: n`, `sent_count: 0`,
`failed_count: 0` (lines 853-861). -/
def initialCampaign (n : Int) : Campaign :=
  { status := "sending", sent_count := 0, failed_count := 0,
    pending_count := n, total_recipients := n, sent_at := none }

-- ===========================================================================
-- CAMPAIGN FINALIZATION (lines 822-837 and the identical lines 887-902)
-- ===========================================================================

/-- The terminal status expression of lines 830-831:
`failed_count === total_recipients ? "failed" :
 sent_count === total_recipients ? "sent" : "partial"`. -/
def finalStatusOf (c : Campaign) : String :=
  if c.failed_count = c.total_recipients then "failed"
  else if c.sent_count = c.total_recipients then "sent"
  else "partial"

/-- The completion check of lines 829-837 (and 894-901): when
`pending_count === 0` the campaign status is set to the terminal status
and `sent_at` (the completion timestamp) is set to the current time;
otherwise the campaign is left untouched. -/
def checkCampaignComplete (c : Campaign) (now : Nat) : Campaign :=
  if c.pending_count = 0 then
    { c with status := finalStatusOf c, sent_at := some now }
  else c

-- ===========================================================================
-- CHUNK SCHEDULING (triggerNextChunk, lines 659-695, and the chunk-chain
-- logic of the HTTP handler, lines 788-903)
-- ===========================================================================

/-- JS `l.slice(a, b)` for lists. -/
def listSlice (l : List α) (a b : Nat) : List α :=
  (l.drop a).take (b - a)

/-- `Math.ceil(n / CHUNK_SIZE)` on a nonnegative count. -/
def ceilDivChunk (n : Nat) : Nat :=
  (n + CHUNK_SIZE - 1) / CHUNK_SIZE

/-- `triggerNextChunk` (lines 659-695): with `nextChunk =
currentChunk + 1`, returns nothing when `nextChunk >= totalChunks`, and
otherwise the invocation payload — the slice
`allRecipients.slice(nextChunk * CHUNK_SIZE, nextChunk * CHUNK_SIZE +
CHUNK_SIZE)` together with the next chunk index and the unchanged
`totalChunks` (the invocation is issued even when that slice is
empty). -/
def triggerNextChunk (allRecipients : List Recipient) (currentChunk totalChunks : Nat) :
    Option (List Recipient × Nat × Nat) :=
  let nextChunk := currentChunk + 1
  if totalChunks ≤ nextChunk then none
  else
    let startIdx := nextChunk * CHUNK_SIZE
    some (listSlice allRecipients startIdx (startIdx + CHUNK_SIZE), nextChunk, totalChunks)

/-- The chunk chain as driven by the chunked-call path of the handler
(lines 791-844), assuming every recipient handed to `processEmailChunk`
reaches a terminal log state (so the pending set shrinks by exactly the
processed chunk).  After the chunk with index `k` (invoked with
`totalChunks = t`) finishes, the handler (lines 799-820):
  - stops when `k + 1 >= t`;
  - re-queries the still-pending log entries (modelled by `pending`, in
    submission order) and stops when none remain;
  - otherwise resolves them to `students` and calls `triggerNextChunk`
    with `totalChunks = Math.ceil(students.length / CHUNK_SIZE) + k + 1`;
  - a continuation invoked with an empty recipient list is rejected by the
    handler with 400 `"No recipients provided"` (lines 746-751), ending
    the chain.
Returns the list of recipient chunks actually processed after chunk `k`.
`fuel` bounds the recursion; each recursive step removes a nonempty chunk
from `pending`, so `fuel = pending.length` suffices. -/
def chunkChainAfter (fuel : Nat) (k t : Nat) (pending : List Recipient) :
    List (List Recipient) :=
  match fuel with
  | 0 => []
  | fuel + 1 =>
    if k + 1 < t then
      if pending = [] then []
      else
        let students := pending
        let t2 := ceilDivChunk students.length + k + 1
        match triggerNextChunk students k t2 with
        | none => []
        | some (chunkRecs, nextChunk, t3) =>
          if chunkRecs = [] then []
          else
            chunkRecs ::
              chunkChainAfter fuel nextChunk t3
                (students.take (nextChunk * CHUNK_SIZE) ++
                 students.drop (nextChunk * CHUNK_SIZE + chunkRecs.length))
    else []

/-- The full sequence of recipient chunks processed for one submitted
recipient list (initial path, lines 846-903, then the chain above):
`calculatedTotalChunks = Math.ceil(recipients.length / CHUNK_SIZE)`;
chunk 0 is `recipients.slice(0, CHUNK_SIZE)`; when more than one chunk is
needed, chunk 1 is `recipients.slice(CHUNK_SIZE, CHUNK_SIZE * 2)` invoked
directly (lines 872-885), and every later chunk comes from the
continuation logic.  An empty submission is rejected with 400 before any
processing (lines 746-751). -/
def chunkChain (recipients : List Recipient) : List (List Recipient) :=
  if recipients = [] then []
  else
    let calculatedTotalChunks := ceilDivChunk recipients.length
    let firstChunk := recipients.take CHUNK_SIZE
    if 1 < calculatedTotalChunks then
      let nextRecipients := listSlice recipients CHUNK_SIZE (CHUNK_SIZE * 2)
      if nextRecipients = [] then [firstChunk]
      else
        firstChunk :: nextRecipients ::
          chunkChainAfter recipients.length 1 calculatedTotalChunks
            (recipients.drop (CHUNK_SIZE * 2))
    else [firstChunk]

-- ===========================================================================
-- THE SYNCHRONOUS PART OF THE HTTP HANDLER (lines 701-922)
-- ===========================================================================

/-- The parsed request body (interface `EmailRequest`, lines 28-38);
`template = none` models a request without a template. -/
structure EmailRequest where
  campaignId : String
  template : Option Template
  recipients : List Recipient
  isRetry : Bool
  chunkIndex : Option Nat
  totalChunks : Option Nat
  deriving DecidableEq, Repr

/-- The SMTP configuration row (interface `SmtpConfig`, lines 40-46). -/
structure SmtpConfig where
  host : String
  port : Nat
  username : String
  from_name : String
  from_email : String
  deriving DecidableEq, Repr

/-- One per-recipient log row. -/
structure LogEntry where
  student_id : String
  status : String
  error_message : Option String
  deriving DecidableEq, Repr

/-- The persisted state visible to the handler: the campaign row and its
recipient log entries. -/
structure ServerState where
  campaign : Campaign
  logs : List LogEntry
  deriving DecidableEq, Repr

/-- The subject-rejection condition of line 727:
`!template || !template.subject || !isValidSubject(template.subject)`. -/
def templateSubjectInvalid (template : Option Template) : Bool :=
  match template with
  | none => true
  | some t => t.subject = "" || !isValidSubject t.subject

/-- The campaign update of the subject-rejection branch (lines 732-738):
status becomes `"failed"` and `sent_at` is stamped; counters and logs are
not touched. -/
def markCampaignFailed (st : ServerState) (now : Nat) : ServerState :=
  { st with campaign := { st.campaign with status := "failed", sent_at := some now } }

/-- The initial-submission campaign update of lines 853-861: status
`"sending"`, `pending_count` set to the submitted recipient count, and —
unless this is a retry submission, where `undefined` leaves the stored
values in place — `sent_count` and `failed_count` reset to zero. -/
def initSubmissionUpdate (st : ServerState) (req : EmailRequest) : ServerState :=
  { st with campaign :=
    { st.campaign with
      status := "sending",
      pending_count := (req.recipients.length : Int),
      sent_count := if req.isRetry then st.campaign.sent_count else 0,
      failed_count := if req.isRetry then st.campaign.failed_count else 0 } }

/-- The synchronous phase of the HTTP handler (lines 701-922), up to the
point where a response is returned: the checks run in source order —
missing SMTP password (500, line 711), invalid template subject (mark the
campaign failed and return 400, lines 727-744), empty recipient list
(400, line 746), missing SMTP configuration row (400, line 760), empty or
invalid From address (400, lines 769-783) — and then either the chunked
or the initial path accepts the request with 200 and schedules background
processing (the returned `Bool`).  Only the subject-rejection branch and
the initial path modify the persisted state before responding. -/
def serveSync (hasPassword : Bool) (smtpConfig : Option SmtpConfig)
    (req : EmailRequest) (st : ServerState) (now : Nat) :
    Nat × ServerState × Bool :=
  if hasPassword = false then (500, st, false)
  else if templateSubjectInvalid req.template then (400, markCampaignFailed st now, false)
  else if req.recipients.length = 0 then (400, st, false)
  else
    match smtpConfig with
    | none => (400, st, false)
    | some cfg =>
      if cfg.from_email = "" ∨ jsTrim cfg.from_email = "" then (400, st, false)
      else if !isValidFromAddress cfg.from_name cfg.from_email then (400, st, false)
      else if req.chunkIndex.isSome && req.totalChunks.isSome then (200, st, true)
      else (200, initSubmissionUpdate st req, true)

-- ===========================================================================
-- Helper lemmas
-- ===========================================================================

/-- A replacement pass that never finds the token returns the input
unchanged (list level, by induction on the fuel). -/
theorem scanReplace_id (tok rep : List Char) :
    ∀ (fuel : Nat) (s before : List Char), s.length ≤ fuel →
      hasTokList tok s = false → scanReplace tok rep fuel before s = s := by
  intro fuel
  induction fuel with
  | zero => intro s before _ _; rfl
  | succ n ih =>
    intro s before hlen htok
    cases s with
    | nil => rfl
    | cons c cs =>
      unfold hasTokList at htok
      rw [Bool.or_eq_false_iff] at htok
      obtain ⟨hm, hrest⟩ := htok
      have hnone : takeMatch tok (c :: cs) = none := by
        cases h : takeMatch tok (c :: cs) with
        | none => rfl
        | some v => rw [h] at hm; simp at hm
      unfold scanReplace
      rw [hnone]
      have : cs.length ≤ n := by
        simp only [List.length_cons] at hlen; omega
      rw [ih cs (before ++ [c]) this hrest]

/-- A `replace` call whose token does not occur in the input is the
identity. -/
theorem jsReplaceGI_id (tok rep s : String) (h : hasTok tok s = false) :
    jsReplaceGI tok rep s = s := by
  obtain ⟨d⟩ := s
  show String.mk (scanReplace tok.data rep.data d.length [] d) = String.mk d
  rw [scanReplace_id tok.data rep.data d.length d [] le_rfl h]

/-- Personalizing a string containing no placeholder token returns it
unchanged. -/
theorem personalize_noPlaceholder (s : String) (r : Recipient)
    (h : containsPlaceholder s = false) : personalizeContent s r = s := by
  unfold containsPlaceholder at h
  rw [Bool.or_eq_false_iff, Bool.or_eq_false_iff] at h
  obtain ⟨⟨h1, h2⟩, h3⟩ := h
  unfold personalizeContent
  by_cases hs : s = ""
  · rw [if_pos hs, hs]
  · rw [if_neg hs, jsReplaceGI_id _ _ _ h1, jsReplaceGI_id _ _ _ h2,
      jsReplaceGI_id _ _ _ h3]

/-- `doneCount` distributes over concatenation of traces. -/
theorem doneCount_append (p q : List CounterStep) :
    doneCount (p ++ q) = doneCount p + doneCount q := by
  induction p with
  | nil => simp [doneCount]
  | cons s rest ih =>
    cases s with
    | done b => simp [doneCount, ih]; omega
    | connectionErrorMark => simp [doneCount, ih]

/-- Running a trace of engine operations from a state satisfying the
counter invariant, with enough pending recipients to cover every
per-recipient persistence step of the trace, preserves the invariant. -/
theorem runTrace_invariant (p : List CounterStep) :
    ∀ c : Campaign, campaignInvariant c →
      (doneCount p : Int) ≤ c.pending_count →
      campaignInvariant (runTrace c p) := by
  induction p with
  | nil => exact fun c h _ => h
  | cons s rest ih =>
    intro c hI hcnt
    cases s with
    | connectionErrorMark =>
      exact ih c hI (by simpa [doneCount] using hcnt)
    | done b =>
      have hp : (1 : Int) ≤ c.pending_count := by
        simp only [doneCount] at hcnt; push_cast at hcnt; omega
      have hmax : max (0 : Int) (c.pending_count - 1) = c.pending_count - 1 :=
        max_eq_right (by omega)
      show campaignInvariant (runTrace (applyCounterStep c b) rest)
      apply ih
      · unfold campaignInvariant at hI ⊢
        simp only [applyCounterStep, hmax]
        cases b <;> simp <;> omega
      · simp only [applyCounterStep, hmax]
        simp only [doneCount] at hcnt; push_cast at hcnt ⊢; omega

/-- The pending counter stays nonnegative along any trace. -/
theorem runTrace_pending_nonneg (trace : List CounterStep) :
    ∀ c : Campaign, 0 ≤ c.pending_count →
      0 ≤ (runTrace c trace).pending_count := by
  induction trace with
  | nil => exact fun c h => h
  | cons s rest ih =>
    intro c h
    cases s with
    | done b => exact ih _ (le_max_left 0 _)
    | connectionErrorMark => exact ih _ h

/-- A string with a nonempty prefix appended to anything is nonempty. -/
theorem permanent_prefix_ne_empty (msg : String) :
    ("Permanent failure: " ++ msg) ≠ "" := by
  intro hc
  have hlen := congrArg String.length hc
  rw [String.length_append] at hlen
  have h19 : "Permanent failure: ".length = 19 := by decide
  have h0 : "".length = 0 := by decide
  rw [h19, h0] at hlen
  omega

-- ===========================================================================
-- Claim theorems
-- ===========================================================================

/-- C1 (amended): at every observation point during processing — after
each per-recipient persistence step, including the invalid-address,
blocked-subject, validation-failure and connection-error paths — the
counters satisfy `sent_count + failed_count + pending_count =
total_recipients`, provided processing starts in a state that satisfies
the invariant and at most `pending_count` per-recipient persistence steps
occur (true of every fresh submission, which starts at
`sent = failed = 0`, `pending = total = n`; a retry submission that
re-submits already-counted recipients starts outside the invariant, see
the counterexample). -/
theorem counter_invariant_preserved (c : Campaign) (trace p q : List CounterStep)
    (hI : campaignInvariant c) (hsplit : trace = p ++ q)
    (hcnt : (doneCount trace : Int) ≤ c.pending_count) :
    campaignInvariant (runTrace c p) := by
  apply runTrace_invariant p c hI
  have hle : doneCount p ≤ doneCount trace := by
    rw [hsplit, doneCount_append]; omega
  calc (doneCount p : Int) ≤ (doneCount trace : Int) := by exact_mod_cast hle
    _ ≤ c.pending_count := hcnt

/-- Witness for C1: a fresh three-recipient campaign observed after one
successful send and a connection-error mark. -/
theorem counter_invariant_preserved_witness :
    campaignInvariant (runTrace (initialCampaign 3)
      [CounterStep.done true, CounterStep.connectionErrorMark]) :=
  counter_invariant_preserved (initialCampaign 3)
    [CounterStep.done true, CounterStep.connectionErrorMark, CounterStep.done false]
    [CounterStep.done true, CounterStep.connectionErrorMark]
    [CounterStep.done false]
    (by decide) rfl (by decide)

/-- C1 counterexample: the claim as stated fails for a retry submission.
A finished campaign with `sent = 2`, `failed = 1`, `pending = 0`,
`total = 3` whose failed recipient is re-submitted with `isRetry = true`
(the resend-failed flow of `Reports.tsx`, which resets the failed log to
pending but leaves `failed_count` in place, after which the engine's
initial path sets `pending_count := 1` while preserving both counters,
lines 853-861) reaches, after the per-recipient persistence step for that
recipient completes, counters `sent = 3`, `failed = 1`, `pending = 0`
summing to 4 ≠ 3. -/
theorem counter_invariant_retry_counterexample :
    ¬ campaignInvariant (runTrace
      ((initSubmissionUpdate
          ⟨⟨"partial", 2, 1, 0, 3, some 0⟩, [⟨"s1", "pending", none⟩]⟩
          ⟨"c1", some ⟨"Subject", "Body"⟩, [⟨"s1", "N", "n@x.co", "BCA"⟩],
            true, none, none⟩).campaign)
      [CounterStep.done true]) := by
  decide

/-- C2: the per-attempt two-minute budget is not enforced.  The source
defines `EMAIL_TIMEOUT_MS` and the `withTimeout` wrapper (lines 256,
262-269) but `sendEmailWithRetry` awaits `client.send` directly
(line 304), so an attempt lasting longer than two minutes is observed as
its eventual transport outcome — here a success after
`EMAIL_TIMEOUT_MS + 1` milliseconds — and is never classified as a
timeout, whereas the unused wrapper would have rejected it with the
timeout message. -/
theorem timeout_budget_not_enforced :
    sendEmailWithRetryTimed (fun _ => ⟨EMAIL_TIMEOUT_MS + 1, .ok⟩) =
      (⟨true, none⟩, 1) ∧
    withTimeout ⟨EMAIL_TIMEOUT_MS + 1, .ok⟩ EMAIL_TIMEOUT_MS
        "Email send timed out after 2 minutes" =
      .err "Email send timed out after 2 minutes" := by
  exact ⟨rfl, by decide⟩

/-- C3 (amended): personalizing a string containing no placeholder token
returns it unchanged, and personalization is idempotent on any input
whose first personalization is placeholder-free; it is *not* idempotent
in general, and a field value containing a later-substituted placeholder
is re-substituted within the same call (see the counterexample). -/
theorem personalization_identity_and_idempotence (s : String) (r : Recipient) :
    (containsPlaceholder s = false → personalizeContent s r = s) ∧
    (containsPlaceholder (personalizeContent s r) = false →
      personalizeContent (personalizeContent s r) r = personalizeContent s r) :=
  ⟨personalize_noPlaceholder s r, fun h => personalize_noPlaceholder _ r h⟩

/-- Witness for C3: a placeholder-free string is unchanged, twice as well
as once. -/
theorem personalization_identity_witness :
    personalizeContent "Dear student" ⟨"s3", "N", "n@x.co", "BCA"⟩ = "Dear student" ∧
    personalizeContent
        (personalizeContent "Dear student" ⟨"s3", "N", "n@x.co", "BCA"⟩)
        ⟨"s3", "N", "n@x.co", "BCA"⟩ =
      personalizeContent "Dear student" ⟨"s3", "N", "n@x.co", "BCA"⟩ :=
  ⟨(personalization_identity_and_idempotence "Dear student" ⟨"s3", "N", "n@x.co", "BCA"⟩).1
      (by decide),
   (personalization_identity_and_idempotence "Dear student" ⟨"s3", "N", "n@x.co", "BCA"⟩).2
      (by decide)⟩

/-- C3 counterexample: with a course value `(name token)`, personalizing
`(course token)` once yields the name token and personalizing twice
substitutes it again, so twice differs from once (idempotence fails);
and a name value containing the course token is substituted by the later
course pass within the same personalization (non-recursion fails):
`personalizeContent` of the name token with `name = "a(course token)b"`,
`course = "C"` yields `"aCb"`. -/
theorem personalization_counterexample :
    (personalizeContent
        (personalizeContent "\x7b\x7bcourse\x7d\x7d"
          ⟨"s1", "N", "n@x.co", "\x7b\x7bname\x7d\x7d"⟩)
        ⟨"s1", "N", "n@x.co", "\x7b\x7bname\x7d\x7d"⟩ ≠
      personalizeContent "\x7b\x7bcourse\x7d\x7d"
        ⟨"s1", "N", "n@x.co", "\x7b\x7bname\x7d\x7d"⟩) ∧
    personalizeContent "\x7b\x7bname\x7d\x7d"
        ⟨"s2", "a\x7b\x7bcourse\x7d\x7db", "n@x.co", "C"⟩ = "aCb" := by
  exact ⟨by decide, by decide⟩

/-- A concrete submitted recipient list of `n` distinct recipients. -/
def sampleRecipients (n : Nat) : List Recipient :=
  (List.range n).map (fun i => ⟨Nat.repr i, "Student", "s@example.com", "BCA"⟩)

/-- C4: evaluation at the failing input.  For the spec's own Scenario A —
45 submitted recipients, chunk size 20, which the claim says is covered
by 3 chunks of 20/20/5 — the chunk chain processes only two chunks:
after chunk 1 the continuation passes the 5-recipient pending list to
`triggerNextChunk` with `totalChunks = ceil(5/20) + 1 + 1 = 3`, which
slices it at absolute offset `2 * 20 = 40`, producing an empty third
chunk whose invocation the handler rejects with 400
`"No recipients provided"`; recipients 41-45 are never processed by the
chain. -/
theorem chunk_chain_drops_recipients :
    chunkChain (sampleRecipients 45) =
      [(sampleRecipients 45).take 20, ((sampleRecipients 45).drop 20).take 20] ∧
    (chunkChain (sampleRecipients 45)).flatten = sampleRecipients 40 ∧
    sampleRecipients 40 ≠ sampleRecipients 45 := by
  exact ⟨by decide, by decide, by decide⟩

/-- C5 (amended): when both attempts fail and neither error is classified
permanent nor the second classified a timeout, `sendEmailWithRetry`
returns a failure carrying the *last underlying error message*, not the
generic string `"Max retries exceeded"` (which is returned only if the
attempt loop exits normally — dead code with `MAX_RETRIES = 2`, since
every second-attempt branch returns). -/
theorem retry_exhaustion_returns_last_error (outcomes : Nat → AttemptResult)
    (m0 m1 : String)
    (h0 : outcomes 0 = .err m0) (h1 : outcomes 1 = .err m1)
    (hp0 : isPermanentError m0 = false) (hp1 : isPermanentError m1 = false)
    (ht1 : jsIncludes m1 "timed out" = false) :
    (sendEmailWithRetry outcomes).1 = ⟨false, some m1⟩ := by
  unfold sendEmailWithRetry MAX_RETRIES
  show (runRetry outcomes (1 + 1) 0).1 = _
  by_cases ht0 : jsIncludes m0 "timed out" = true
  · simp [runRetry, h0, h1, hp0, hp1, ht0, ht1, MAX_RETRIES]
  · simp at ht0
    simp [runRetry, h0, h1, hp0, hp1, ht0, ht1, MAX_RETRIES]

/-- Witness for C5 (amended): two transient connection errors yield the
second error message. -/
theorem retry_exhaustion_witness :
    (sendEmailWithRetry
        (fun i => if i = 0 then .err "Error A" else .err "Error B")).1 =
      ⟨false, some "Error B"⟩ :=
  retry_exhaustion_returns_last_error
    (fun i => if i = 0 then .err "Error A" else .err "Error B")
    "Error A" "Error B" rfl rfl (by decide) (by decide) (by decide)

/-- C5 counterexample: both attempts fail with a transient error and the
result carries that error message, not `"Max retries exceeded"` as the
claim states. -/
theorem retry_exhaustion_counterexample :
    sendEmailWithRetry (fun _ => .err "Connection reset by relay") =
      (⟨false, some "Connection reset by relay"⟩, 2) ∧
    some "Connection reset by relay" ≠ some "Max retries exceeded" :=
  ⟨rfl, by decide⟩

/-- C6: once `pending_count = 0`, the completion check sets exactly the
claimed terminal status — `"failed"` iff `failed_count =
total_recipients`, else `"sent"` iff `sent_count = total_recipients`,
else `"partial"` — and stamps the completion timestamp. -/
theorem finalization_status (c : Campaign) (now : Nat)
    (h : c.pending_count = 0) :
    ((checkCampaignComplete c now).status = "failed" ↔
      c.failed_count = c.total_recipients) ∧
    ((checkCampaignComplete c now).status = "sent" ↔
      (c.failed_count ≠ c.total_recipients ∧ c.sent_count = c.total_recipients)) ∧
    ((checkCampaignComplete c now).status = "partial" ↔
      (c.failed_count ≠ c.total_recipients ∧ c.sent_count ≠ c.total_recipients)) ∧
    (checkCampaignComplete c now).sent_at = some now := by
  unfold checkCampaignComplete finalStatusOf
  rw [if_pos h]
  by_cases h1 : c.failed_count = c.total_recipients <;>
    by_cases h2 : c.sent_count = c.total_recipients <;>
      simp [h1, h2]

/-- Witness for C6: a mixed campaign (2 sent, 1 failed of 3) finalizes as
`"partial"` with the timestamp set. -/
theorem finalization_status_witness :
    ((checkCampaignComplete ⟨"sending", 2, 1, 0, 3, none⟩ 7).status = "failed" ↔
      (1 : Int) = 3) ∧
    ((checkCampaignComplete ⟨"sending", 2, 1, 0, 3, none⟩ 7).status = "sent" ↔
      ((1 : Int) ≠ 3 ∧ (2 : Int) = 3)) ∧
    ((checkCampaignComplete ⟨"sending", 2, 1, 0, 3, none⟩ 7).status = "partial" ↔
      ((1 : Int) ≠ 3 ∧ (2 : Int) ≠ 3)) ∧
    (checkCampaignComplete ⟨"sending", 2, 1, 0, 3, none⟩ 7).sent_at = some 7 :=
  finalization_status ⟨"sending", 2, 1, 0, 3, none⟩ 7 rfl

/-- C7: with the SMTP password configured, a request whose template
subject is missing, empty or invalid is rejected synchronously with 400
before any recipient is processed: no background processing is scheduled,
the recipient log entries are untouched, `pending_count` keeps its
pre-submission value, and the campaign status is set to `"failed"`. -/
theorem empty_subject_rejected_synchronously (cfg : Option SmtpConfig)
    (req : EmailRequest) (st : ServerState) (now : Nat)
    (hbad : templateSubjectInvalid req.template = true) :
    (serveSync true cfg req st now).1 = 400 ∧
    (serveSync true cfg req st now).2.1.logs = st.logs ∧
    (serveSync true cfg req st now).2.1.campaign.pending_count =
      st.campaign.pending_count ∧
    (serveSync true cfg req st now).2.1.campaign.status = "failed" ∧
    (serveSync true cfg req st now).2.2 = false := by
  unfold serveSync
  simp [hbad, markCampaignFailed]

/-- Witness for C7: an empty-subject submission against a three-pending
campaign is rejected with 400, logs and pending untouched, status
failed. -/
theorem empty_subject_rejected_witness :
    (serveSync true none
        ⟨"c1", some ⟨"", "Body"⟩, [⟨"s1", "N", "n@x.co", "BCA"⟩], false, none, none⟩
        ⟨⟨"draft", 0, 0, 3, 3, none⟩, [⟨"s1", "pending", none⟩]⟩ 5).1 = 400 ∧
    (serveSync true none
        ⟨"c1", some ⟨"", "Body"⟩, [⟨"s1", "N", "n@x.co", "BCA"⟩], false, none, none⟩
        ⟨⟨"draft", 0, 0, 3, 3, none⟩, [⟨"s1", "pending", none⟩]⟩ 5).2.1.logs =
      [⟨"s1", "pending", none⟩] ∧
    (serveSync true none
        ⟨"c1", some ⟨"", "Body"⟩, [⟨"s1", "N", "n@x.co", "BCA"⟩], false, none, none⟩
        ⟨⟨"draft", 0, 0, 3, 3, none⟩, [⟨"s1", "pending", none⟩]⟩ 5).2.1.campaign.pending_count = 3 ∧
    (serveSync true none
        ⟨"c1", some ⟨"", "Body"⟩, [⟨"s1", "N", "n@x.co", "BCA"⟩], false, none, none⟩
        ⟨⟨"draft", 0, 0, 3, 3, none⟩, [⟨"s1", "pending", none⟩]⟩ 5).2.1.campaign.status = "failed" ∧
    (serveSync true none
        ⟨"c1", some ⟨"", "Body"⟩, [⟨"s1", "N", "n@x.co", "BCA"⟩], false, none, none⟩
        ⟨⟨"draft", 0, 0, 3, 3, none⟩, [⟨"s1", "pending", none⟩]⟩ 5).2.2 = false :=
  empty_subject_rejected_synchronously none
    ⟨"c1", some ⟨"", "Body"⟩, [⟨"s1", "N", "n@x.co", "BCA"⟩], false, none, none⟩
    ⟨⟨"draft", 0, 0, 3, 3, none⟩, [⟨"s1", "pending", none⟩]⟩ 5 (by decide)

/-- C8: a first attempt failing with a permanent classification (error
message containing `"550"`, `"553"`, `"invalid"` or `"RFC"`) performs
zero further attempts — exactly one attempt total — and the per-recipient
log update records status `"failed"` with the error message prefixed
`"Permanent failure:"`. -/
theorem permanent_failure_short_circuits (outcomes : Nat → AttemptResult)
    (msg : String) (h0 : outcomes 0 = .err msg)
    (hperm : (jsIncludes msg "550" || jsIncludes msg "553" ||
      jsIncludes msg "invalid" || jsIncludes msg "RFC") = true) :
    sendEmailWithRetry outcomes =
      (⟨false, some ("Permanent failure: " ++ msg)⟩, 1) ∧
    logUpdateForResult (sendEmailWithRetry outcomes).1 =
      ("failed", some ("Permanent failure: " ++ msg)) := by
  have hp : isPermanentError msg = true := by
    unfold isPermanentError
    simp only [Bool.or_eq_true] at hperm ⊢
    tauto
  have hmain : sendEmailWithRetry outcomes =
      (⟨false, some ("Permanent failure: " ++ msg)⟩, 1) := by
    unfold sendEmailWithRetry MAX_RETRIES
    show runRetry outcomes (1 + 1) 0 = _
    simp [runRetry, h0, hp]
  refine ⟨hmain, ?_⟩
  rw [hmain]
  unfold logUpdateForResult
  simp [permanent_prefix_ne_empty msg]

/-- Witness for C8: a 550 rejection on the first attempt. -/
theorem permanent_failure_witness :
    sendEmailWithRetry (fun _ => .err "550 No such user") =
      (⟨false, some ("Permanent failure: " ++ "550 No such user")⟩, 1) ∧
    logUpdateForResult
        (sendEmailWithRetry (fun _ => .err "550 No such user")).1 =
      ("failed", some ("Permanent failure: " ++ "550 No such user")) :=
  permanent_failure_short_circuits (fun _ => .err "550 No such user")
    "550 No such user" rfl (by decide)

/-- C9: every counter update decrements `pending_count` through
`Math.max(0, pending_count - 1)`, so along any sequence of engine
operations a nonnegative `pending_count` stays nonnegative; and when
`pending_count` is already zero a further per-recipient update leaves it
at zero while still incrementing `sent_count + failed_count` — the clamp
silently absorbs the excess decrement. -/
theorem pending_count_clamped (st : Campaign) (trace : List CounterStep)
    (b : Bool) (h : 0 ≤ st.pending_count) :
    0 ≤ (runTrace st trace).pending_count ∧
    (st.pending_count = 0 →
      (applyCounterStep st b).pending_count = 0 ∧
      (applyCounterStep st b).sent_count + (applyCounterStep st b).failed_count =
        st.sent_count + st.failed_count + 1) := by
  refine ⟨runTrace_pending_nonneg trace st h, fun h0 => ?_⟩
  unfold applyCounterStep
  simp [h0]
  cases b <;> simp <;> omega

/-- Witness for C9: a campaign with `pending_count = 0` processed once
more keeps `pending_count = 0` while the terminal counters grow. -/
theorem pending_count_clamped_witness :
    0 ≤ (runTrace ⟨"sending", 3, 2, 0, 5, none⟩
      [CounterStep.done true, CounterStep.done false]).pending_count ∧
    ((applyCounterStep ⟨"sending", 3, 2, 0, 5, none⟩ true).pending_count = 0 ∧
      (applyCounterStep ⟨"sending", 3, 2, 0, 5, none⟩ true).sent_count +
        (applyCounterStep ⟨"sending", 3, 2, 0, 5, none⟩ true).failed_count =
        3 + 2 + 1) :=
  ⟨(pending_count_clamped ⟨"sending", 3, 2, 0, 5, none⟩
      [CounterStep.done true, CounterStep.done false] true (by decide)).1,
   (pending_count_clamped ⟨"sending", 3, 2, 0, 5, none⟩
      [CounterStep.done true, CounterStep.done false] true (by decide)).2 rfl⟩

/-- C10 (amended): `isValidEmail` tests the address grammar on the
trimmed input and the 254-character bound on the raw input, so every
string whose trimmed form matches the grammar and whose raw length is at
most 254 validates — in particular an address surrounded by whitespace is
classified valid; however it does not reach the transport with the
whitespace intact, because `buildToAddress` builds the To header from the
*trimmed* address (line 220). -/
theorem validation_trims_grammar_only :
    (∀ s : String, emailRegexTest (jsTrim s) = true → s.data.length ≤ 254 →
      isValidEmail s = true) ∧
    (∀ e : String, buildToAddress "" e = jsTrim e) := by
  constructor
  · intro s hre hlen
    unfold isValidEmail
    have hs : s ≠ "" := by
      intro h
      rw [h] at hre
      exact absurd hre (by decide)
    rw [if_neg hs, hre, Bool.true_and, decide_eq_true_eq]
    exact hlen
  · intro e
    unfold buildToAddress
    simp

/-- Witness for C10 (amended): a whitespace-wrapped address validates,
and the To header built for it is the trimmed address. -/
theorem validation_trims_witness :
    isValidEmail "  student@example.com" = true ∧
    buildToAddress "" "  student@example.com" = "student@example.com" :=
  ⟨validation_trims_grammar_only.1 "  student@example.com" (by decide) (by decide),
   by rw [validation_trims_grammar_only.2]; decide⟩

/-- C10 counterexample to the claim as stated: `" a@b.com"` (leading
space) is classified valid, but the address handed to the transport in
the To header is the trimmed `"a@b.com"`, not the raw string — the
whitespace does not stay intact. -/
theorem whitespace_not_intact_counterexample :
    isValidEmail " a@b.com" = true ∧
    buildToAddress "" " a@b.com" = "a@b.com" ∧
    "a@b.com" ≠ " a@b.com" := by
  exact ⟨by decide, by decide, by decide⟩

end SendCampaignEmails
